import Mathlib

/-!
Shallow embedding of `src/api.rs` of the quic-p2p crate.

The file under `src/` is `api.rs` alone.  The modules it draws on
(`config.rs`, `error.rs`, `bootstrap_cache.rs`, `connections.rs`,
`peer_config.rs`) and the external collaborators (the quinn transport
engine, the OS socket layer, the futures and tokio runtimes) are modelled
here: repository modules from the spec, external collaborators as
oracles.  All nondeterminism of the network and of the async scheduler is
captured by an explicit `Net` oracle and, for the bootstrap race, by an
explicit completion order of the racing tasks.
-/

set_option autoImplicit false

deriving instance DecidableEq for Except

/-- A socket address: an IP (modelled as an abstract numeric value; the
`IpAddr` type is external) together with a 16-bit port (modelled as `Nat`). -/
structure SocketAddr where
  ip : Nat
  port : Nat
deriving DecidableEq, Repr

/-- Modelled from the spec: the error kinds of `error.rs` (not under `src/`),
as listed in spec section 7: Configuration, Endpoint, Connect,
BootstrapFailure, MessageTooLarge, Closed.  The payloads carried by the
first three are the context strings / wrapped causes; `api.rs` constructs
`Configuration` with a formatted message and `Endpoint` from a transport
engine error. -/
inductive Error where
  | Configuration (e : String)
  | Endpoint (e : String)
  | Connect (e : String)
  | BootstrapFailure
  | MessageTooLarge
  | Closed
deriving DecidableEq, Repr

/-- Modelled from the spec: the declarative configuration of `config.rs`
(not under `src/`).  Its fields are exactly those `api.rs` reads, all
optional per spec section 3, plus the hard-coded contact list. -/
structure Config where
  port : Option Nat
  ip : Option Nat
  max_msg_size_allowed : Option Nat
  idle_timeout_msec : Option Nat
  keep_alive_interval_msec : Option Nat
  bootstrap_cache_dir : Option String
  hard_coded_contacts : List SocketAddr
deriving DecidableEq, Repr

/-- Default maximum allowed message size (`api.rs` line 31). -/
def DEFAULT_MAX_ALLOWED_MSG_SIZE : Nat := 500 * 1024 * 1024

/-- Port tried first when the user supplied none (`api.rs` line 35). -/
def DEFAULT_PORT_TO_TRY : Nat := 12000

/-- Modelled from the spec: default idle timeout of `peer_config.rs`
(not under `src/`).  No claim depends on its value. -/
def DEFAULT_IDLE_TIMEOUT_MSEC : Nat := 30000

/-- Modelled from the spec: default keep-alive interval of `peer_config.rs`
(not under `src/`).  No claim depends on its value. -/
def DEFAULT_KEEP_ALIVE_INTERVAL_MSEC : Nat := 10000

/-- Host name of the Quic communication certificate (`api.rs` line 59). -/
def CERT_SERVER_NAME : String := "MaidSAFE.net"

/-- Modelled from the spec: server-role transport parameter set produced by
`peer_config::new_our_cfg` (not under `src/`), a pure record of the
timeouts and the identity material (spec section 4.2). -/
structure ServerConfig where
  idle_timeout_msec : Nat
  keep_alive_interval_msec : Nat
  cert : Nat
  key : Nat
deriving DecidableEq, Repr

/-- Modelled from the spec: client-role transport parameter set produced by
`peer_config::new_client_cfg` (not under `src/`), a pure record of the
timeouts (spec section 4.2). -/
structure ClientConfig where
  idle_timeout_msec : Nat
  keep_alive_interval_msec : Nat
deriving DecidableEq, Repr

/-- Modelled from the spec: `peer_config::new_our_cfg` as a pure function of
timeouts and identity material (spec section 4.2). -/
def new_our_cfg (idle_timeout_msec keep_alive_interval_msec cert key : Nat) : ServerConfig :=
  { idle_timeout_msec := idle_timeout_msec
    keep_alive_interval_msec := keep_alive_interval_msec
    cert := cert
    key := key }

/-- Modelled from the spec: `peer_config::new_client_cfg` as a pure function
of the timeouts (spec section 4.2). -/
def new_client_cfg (idle_timeout_msec keep_alive_interval_msec : Nat) : ClientConfig :=
  { idle_timeout_msec := idle_timeout_msec
    keep_alive_interval_msec := keep_alive_interval_msec }

/-- Identity material.  Key/certificate generation is an out-of-scope
external collaborator (spec section 1); modelled as a fixed pair
(key, cert) whose contents no claim depends on. -/
def obtain_priv_key_and_cert : Nat × Nat := (0, 0)

/-- Modelled from the spec: the Peer Cache of `bootstrap_cache.rs` (not
under `src/`): a mutable, order-significant list of previously-seen peers
(front of the list is the oldest; new peers are appended at the back, as
`VecDeque::extend` pushes to the back) and an immutable list of hard-coded
contacts (spec section 3). -/
structure BootstrapCache where
  peers : List SocketAddr
  hard_coded_contacts : List SocketAddr
deriving DecidableEq, Repr

/-- Modelled from the spec: `BootstrapCache::new` records the hard-coded
contacts and loads the previously-seen peer list from disk
(load-on-construct, spec section 6); the on-disk list is passed in as
`diskPeers` since file I/O is external. -/
def BootstrapCache.new (hard_coded_contacts : List SocketAddr)
    (diskPeers : List SocketAddr) : BootstrapCache :=
  { peers := diskPeers, hard_coded_contacts := hard_coded_contacts }

/-- A bound quinn endpoint: the server configuration installed on the
builder and the address actually bound (`local_addr()`). -/
structure Endpoint where
  endpoint_cfg : ServerConfig
  local_addr : SocketAddr
deriving DecidableEq, Repr

/-- The incoming-connections half returned by a bind. -/
structure Incoming where
  local_addr : SocketAddr
deriving DecidableEq, Repr

/-- An in-flight outbound connection attempt (`quinn::Connecting`). -/
structure Connecting where
  local_addr : SocketAddr
  node_addr : SocketAddr
deriving DecidableEq, Repr

/-- An established transport-engine connection (`quinn::Connection`),
treated as an abstract handle. -/
structure QuicConn where
  id : Nat
deriving DecidableEq, Repr

/-- Modelled from the spec: the `Connection` of `connections.rs` (not under
`src/`): wraps a transport-engine connection plus the maximum message size
used to validate inbound payloads (spec section 3). -/
structure Connection where
  quic_conn : QuicConn
  max_msg_size : Nat
deriving DecidableEq, Repr

/-- Modelled from the spec: the lazy sequence of accepted inbound
connections of `connections.rs` (not under `src/`), spec section 4.6. -/
structure IncomingConnections where
  incoming : Incoming
  max_msg_size : Nat
deriving DecidableEq, Repr

/-- Outcome of one attempt to bind an OS socket at an address and wrap it
into a quinn endpoint:
`ok boundAddr` — the socket bound, at `boundAddr` (when the requested port
was 0 the OS picked an ephemeral port, so `boundAddr` may differ);
`udpErr` — `UdpSocket::bind` itself failed (port occupied, etc.);
`epErr` — the socket bound but the endpoint construction
(`with_socket`) failed. -/
inductive SockRes where
  | ok (boundAddr : SocketAddr)
  | udpErr (e : String)
  | epErr (e : String)
deriving DecidableEq, Repr

/-- The oracle for every external effect an operation can perform: OS
socket binds and the stages of a quinn outbound connection.  A concrete
`Net` fixes one behaviour of the outside world. -/
structure Net where
  sock : SocketAddr → SockRes
  connect_with : ClientConfig → Endpoint → SocketAddr → String → Except Error Connecting
  handshake : Connecting → Except Error QuicConn
  conn_new_err : QuicConn → Option Error

/-- Modelled from the spec: `Connection::new` of `connections.rs` (not
under `src/`): wraps the transport session together with `max_msg_size`;
the fallible establishment step is an oracle of the network model. -/
def Connection.new (net : Net) (quic_conn : QuicConn) (max_msg_size : Nat) :
    Except Error Connection :=
  match net.conn_new_err quic_conn with
  | some e => Except.error e
  | none => Except.ok { quic_conn := quic_conn, max_msg_size := max_msg_size }

/-- Modelled from the spec: `IncomingConnections::new` of `connections.rs`
(not under `src/`) wraps the accepted-connections sequence with the
configured maximum message size; the spec (section 4.6) gives it no
failure condition of its own beyond the bind that precedes it. -/
def IncomingConnections.new (quinn_incoming : Incoming) (max_msg_size : Nat) :
    Except Error IncomingConnections :=
  Except.ok { incoming := quinn_incoming, max_msg_size := max_msg_size }

/-- `bind` of `api.rs` lines 268-298.  First a literal `UdpSocket::bind` at
`local_addr`; on success the endpoint is built around that socket (a
failure there is an `Endpoint` error, fallback or not); on a socket-bind
failure with `allow_random_port` the builder binds at `(local_addr.ip, 0)`
and any failure of that retry is an `Endpoint` error; on a socket-bind
failure without `allow_random_port` the call fails with a `Configuration`
error naming the user-supplied port. -/
def Api.bind (net : Net) (endpoint_cfg : ServerConfig) (local_addr : SocketAddr)
    (allow_random_port : Bool) : Except Error (Endpoint × Incoming) :=
  match net.sock local_addr with
  | SockRes.ok boundAddr =>
      Except.ok ({ endpoint_cfg := endpoint_cfg, local_addr := boundAddr },
        { local_addr := boundAddr })
  | SockRes.epErr e => Except.error (Error.Endpoint e)
  | SockRes.udpErr err =>
      if allow_random_port then
        let bind_addr : SocketAddr := { ip := local_addr.ip, port := 0 }
        match net.sock bind_addr with
        | SockRes.ok boundAddr =>
            Except.ok ({ endpoint_cfg := endpoint_cfg, local_addr := boundAddr },
              { local_addr := boundAddr })
        | SockRes.udpErr e => Except.error (Error.Endpoint e)
        | SockRes.epErr e => Except.error (Error.Endpoint e)
      else
        Except.error (Error.Configuration
          ("Could not bind to the user supplied port: " ++ toString local_addr.port
            ++ "! Error: " ++ err))

/-- The addresses at which `bind` attempts an OS-level socket bind, in
order, read off the same match structure as `bind`. -/
def bindAttempts (net : Net) (local_addr : SocketAddr) (allow_random_port : Bool) :
    List SocketAddr :=
  match net.sock local_addr with
  | SockRes.ok _ => [local_addr]
  | SockRes.epErr _ => [local_addr]
  | SockRes.udpErr _ =>
      if allow_random_port then [local_addr, { ip := local_addr.ip, port := 0 }]
      else [local_addr]

/-- `new_connection_to` of `api.rs` lines 241-265: bind a fresh endpoint,
initiate the handshake to `node_addr` under `CERT_SERVER_NAME`, await it,
wrap the session into a `Connection`, and return it together with the
endpoint's actually-bound local address. -/
def new_connection_to (net : Net) (node_addr : SocketAddr)
    (endpoint_cfg : ServerConfig) (client_cfg : ClientConfig) (max_msg_size : Nat)
    (local_addr : SocketAddr) (allow_random_port : Bool) :
    Except Error (Connection × SocketAddr) := do
  let (quinn_endpoint, _) ← Api.bind net endpoint_cfg local_addr allow_random_port
  let quinn_connecting ← net.connect_with client_cfg quinn_endpoint node_addr CERT_SERVER_NAME
  let quic_conn ← net.handshake quinn_connecting
  let connection ← Connection.new net quic_conn max_msg_size
  Except.ok (connection, quinn_endpoint.local_addr)

/-- The main instance (`api.rs` lines 63-70). -/
structure QuicP2p where
  local_addr : SocketAddr
  allow_random_port : Bool
  max_msg_size : Nat
  bootstrap_cache : BootstrapCache
  endpoint_cfg : ServerConfig
  client_cfg : ClientConfig
deriving DecidableEq, Repr

/-- `QuicP2p::with_config` of `api.rs` lines 85-146, for a supplied
configuration.  External fallible collaborators of the success path (the
default-config file read, key/certificate generation, transport parameter
building, the cache-file load) are out of scope (spec section 1); when any
of them fails the constructor returns early with its error and no instance
exists, so they are modelled as succeeding and the constructor as total.
The on-disk peer list the cache loads is the parameter `diskPeers`. -/
def QuicP2p.with_config (cfg : Config) (bootstrap_nodes : List SocketAddr)
    (use_bootstrap_cache : Bool) (diskPeers : List SocketAddr) : QuicP2p :=
  let pa := (cfg.port.map fun p => (p, false)).getD (DEFAULT_PORT_TO_TRY, true)
  let port := pa.1
  let allow_random_port := pa.2
  let ip := cfg.ip.getD 0
  let max_msg_size := cfg.max_msg_size_allowed.getD DEFAULT_MAX_ALLOWED_MSG_SIZE
  let idle_timeout_msec := cfg.idle_timeout_msec.getD DEFAULT_IDLE_TIMEOUT_MSEC
  let keep_alive_interval_msec :=
    cfg.keep_alive_interval_msec.getD DEFAULT_KEEP_ALIVE_INTERVAL_MSEC
  let kc := obtain_priv_key_and_cert
  let bootstrap_cache0 := BootstrapCache.new cfg.hard_coded_contacts diskPeers
  let bootstrap_cache :=
    if use_bootstrap_cache then
      { bootstrap_cache0 with peers := bootstrap_cache0.peers ++ bootstrap_nodes }
    else
      { bootstrap_cache0 with peers := bootstrap_nodes }
  let endpoint_cfg := new_our_cfg idle_timeout_msec keep_alive_interval_msec kc.2 kc.1
  let client_cfg := new_client_cfg idle_timeout_msec keep_alive_interval_msec
  { local_addr := { ip := ip, port := port }
    allow_random_port := allow_random_port
    max_msg_size := max_msg_size
    bootstrap_cache := bootstrap_cache
    endpoint_cfg := endpoint_cfg
    client_cfg := client_cfg }

/-- The candidate list `bootstrap_nodes` built at `api.rs` lines 157-164:
the cached peers iterated in reverse (most recently inserted first) chained
with the hard-coded contacts in their listed order. -/
def QuicP2p.bootstrapNodes (qp : QuicP2p) : List SocketAddr :=
  qp.bootstrap_cache.peers.reverse ++ qp.bootstrap_cache.hard_coded_contacts

/-- Result of `futures::future::select_ok` over a list of already-resolved
futures given in completion order: the first entry to resolve without an
error wins; entries that resolve with an error are dropped and, when every
entry errors, the error of the last one is returned; on an empty list the
combinator asserts and aborts (documented: it panics when the iterator has
no items). -/
inductive SelectOkRes (ε α : Type) where
  | panicEmpty
  | ok (a : α)
  | err (e : ε)
deriving DecidableEq, Repr

/-- `futures::future::select_ok`, modelled on the list of the racing
futures' results in the order in which they complete. -/
def select_ok {ε α : Type} : List (Except ε α) → SelectOkRes ε α
  | [] => SelectOkRes.panicEmpty
  | Except.ok a :: _ => SelectOkRes.ok a
  | Except.error e :: rest =>
      match rest with
      | [] => SelectOkRes.err e
      | _ :: _ => select_ok rest

/-- Outcome of a `bootstrap` call: a connection, an error, or an abort of
the calling task (panic). -/
inductive Outcome (α : Type) where
  | ok (a : α)
  | err (e : Error)
  | panicked
deriving DecidableEq, Repr

/-- `QuicP2p::bootstrap` of `api.rs` lines 155-198.  One task per candidate
is spawned, each running `new_connection_to` with the instance's
parameters; `order` lists the candidates in the order in which their tasks
complete (any permutation of the candidate list can occur).  Each task
completes without a `JoinError` — `new_connection_to` returns its failures
as values — so every entry handed to `select_ok` is `Except.ok` of the
task's inner connection result (`JoinError`, the ε of `select_ok`, would
require a panicked or cancelled task).  A `select_ok`-level error maps to
`Error.BootstrapFailure`; the winning task's inner result is then
propagated with the try operator, and on an inner success the instance's
recorded local address is updated to the winner's bound address. -/
def QuicP2p.bootstrap (net : Net) (order : List SocketAddr) (qp : QuicP2p) :
    QuicP2p × Outcome Connection :=
  let tasks : List (Except String (Except Error (Connection × SocketAddr))) :=
    order.map fun node_addr =>
      Except.ok (new_connection_to net node_addr qp.endpoint_cfg qp.client_cfg
        qp.max_msg_size qp.local_addr qp.allow_random_port)
  match select_ok tasks with
  | SelectOkRes.panicEmpty => (qp, Outcome.panicked)
  | SelectOkRes.err _ => (qp, Outcome.err Error.BootstrapFailure)
  | SelectOkRes.ok conn_info =>
      match conn_info with
      | Except.error e => (qp, Outcome.err e)
      | Except.ok (connection, addr) =>
          ({ qp with local_addr := addr }, Outcome.ok connection)

/-- `QuicP2p::connect_to` of `api.rs` lines 202-214: a single
`new_connection_to` with the instance's parameters; the bound address the
attempt reports is discarded and no field of the instance is assigned. -/
def QuicP2p.connect_to (net : Net) (qp : QuicP2p) (node_addr : SocketAddr) :
    QuicP2p × Except Error Connection :=
  (qp, do
    let (connection, _addr) ← new_connection_to net node_addr qp.endpoint_cfg
      qp.client_cfg qp.max_msg_size qp.local_addr qp.allow_random_port
    Except.ok connection)

/-- `QuicP2p::listen` of `api.rs` lines 217-224: bind with the instance's
parameters and wrap the incoming half.  The receiver is immutable
(`&self`); in this state-passing form the instance is returned unchanged. -/
def QuicP2p.listen (net : Net) (qp : QuicP2p) :
    QuicP2p × Except Error IncomingConnections :=
  (qp, do
    let (_, quinn_incoming) ← Api.bind net qp.endpoint_cfg qp.local_addr qp.allow_random_port
    IncomingConnections.new quinn_incoming qp.max_msg_size)

/-! ## Shared concrete inputs for the closed evaluation theorems -/

/-- A configuration with every optional field absent and no contacts. -/
def cfgDefault : Config :=
  { port := none, ip := none, max_msg_size_allowed := none, idle_timeout_msec := none,
    keep_alive_interval_msec := none, bootstrap_cache_dir := none, hard_coded_contacts := [] }

/-- A configuration pinning port 4000. -/
def cfgPinned : Config := { cfgDefault with port := some 4000 }

/-- The server-role parameters produced under the default configuration. -/
def cfgS : ServerConfig :=
  new_our_cfg DEFAULT_IDLE_TIMEOUT_MSEC DEFAULT_KEEP_ALIVE_INTERVAL_MSEC 0 0

/-- A requested local address with a pinned port. -/
def addrPinned : SocketAddr := { ip := 7, port := 5000 }

/-- A world in which every socket bind at a nonzero port fails with "busy"
while an ephemeral bind (port 0) succeeds and the OS assigns port 777. -/
def netBusy : Net :=
  { sock := fun a =>
      if a.port = 0 then SockRes.ok { ip := a.ip, port := 777 } else SockRes.udpErr "busy"
    connect_with := fun _ _ _ _ => Except.error Error.Closed
    handshake := fun _ => Except.error Error.Closed
    conn_new_err := fun _ => none }

/-- Concatenation of strings is associative (helper for reading the port
out of the `Configuration` message). -/
theorem string_append_assoc (a b c : String) : a ++ b ++ c = a ++ (b ++ c) := by
  cases a with
  | mk da =>
    cases b with
    | mk db =>
      cases c with
      | mk dc =>
        show String.mk (da ++ db ++ dc) = String.mk (da ++ (db ++ dc))
        rw [List.append_assoc]

/-- Claim C4: when the literal bind to the requested address fails and
`allow_random_port` is false, `bind` returns a `Configuration` error whose
message contains the originally requested port, and the requested address
is the only address at which a socket bind is ever attempted. -/
theorem bind_pinned_port_no_fallback (net : Net) (endpoint_cfg : ServerConfig)
    (local_addr : SocketAddr) (e : String)
    (h : net.sock local_addr = SockRes.udpErr e) :
    (∃ pre suf, Api.bind net endpoint_cfg local_addr false =
        Except.error (Error.Configuration (pre ++ toString local_addr.port ++ suf))) ∧
    bindAttempts net local_addr false = [local_addr] := by
  refine ⟨⟨"Could not bind to the user supplied port: ", "! Error: " ++ e, ?_⟩, ?_⟩
  · simp [Api.bind, h, string_append_assoc]
  · simp [bindAttempts, h]

/-- Claim C4, witnessed: in the all-binds-busy world, binding the pinned
address without fallback yields the `Configuration` error naming port 5000
after a single bind attempt. -/
theorem bind_pinned_port_no_fallback_witness :
    (∃ pre suf, Api.bind netBusy cfgS addrPinned false =
        Except.error (Error.Configuration (pre ++ toString addrPinned.port ++ suf))) ∧
    bindAttempts netBusy addrPinned false = [addrPinned] :=
  bind_pinned_port_no_fallback netBusy cfgS addrPinned "busy" (by decide)

/-- Claim C5: when the literal bind to the requested address fails and
`allow_random_port` is true, `bind` retries exactly once, at the requested
IP with port 0; a successful retry yields the endpoint bound at the
OS-assigned address, and either failure of the retry is returned as an
`Endpoint` error with no further attempts. -/
theorem bind_fallback_single_retry (net : Net) (endpoint_cfg : ServerConfig)
    (local_addr : SocketAddr) (e : String)
    (h : net.sock local_addr = SockRes.udpErr e) :
    bindAttempts net local_addr true = [local_addr, { ip := local_addr.ip, port := 0 }] ∧
    (∀ b, net.sock { ip := local_addr.ip, port := 0 } = SockRes.ok b →
      Api.bind net endpoint_cfg local_addr true =
        Except.ok ({ endpoint_cfg := endpoint_cfg, local_addr := b },
          { local_addr := b })) ∧
    (∀ e2, net.sock { ip := local_addr.ip, port := 0 } = SockRes.udpErr e2 →
      Api.bind net endpoint_cfg local_addr true = Except.error (Error.Endpoint e2)) ∧
    (∀ e2, net.sock { ip := local_addr.ip, port := 0 } = SockRes.epErr e2 →
      Api.bind net endpoint_cfg local_addr true = Except.error (Error.Endpoint e2)) := by
  refine ⟨by simp [bindAttempts, h], ?_, ?_, ?_⟩ <;> intro x hx <;> simp [Api.bind, h, hx]

/-- Claim C5, witnessed: in the all-binds-busy world the pinned address
fails, the one retry happens at (ip 7, port 0), and the endpoint comes back
bound at the OS-assigned port 777. -/
theorem bind_fallback_single_retry_witness :
    bindAttempts netBusy addrPinned true = [addrPinned, { ip := addrPinned.ip, port := 0 }] ∧
    Api.bind netBusy cfgS addrPinned true =
      Except.ok ({ endpoint_cfg := cfgS, local_addr := { ip := 7, port := 777 } },
        { local_addr := { ip := 7, port := 777 } }) :=
  ⟨(bind_fallback_single_retry netBusy cfgS addrPinned "busy" (by decide)).1,
    (bind_fallback_single_retry netBusy cfgS addrPinned "busy" (by decide)).2.1
      { ip := 7, port := 777 } (by decide)⟩

/-- Claim C6: for every peer-cache state the bootstrap candidate list is
the cached peers in reverse insertion order followed by the hard-coded
contacts in their listed order; in particular, peers inserted as
A, B, C are presented as C, B, A before the contacts, whatever the
contacts are. -/
theorem bootstrap_nodes_order (qp : QuicP2p) (A B C : SocketAddr)
    (h : qp.bootstrap_cache.peers = [A, B, C]) :
    QuicP2p.bootstrapNodes qp =
      qp.bootstrap_cache.peers.reverse ++ qp.bootstrap_cache.hard_coded_contacts ∧
    QuicP2p.bootstrapNodes qp =
      C :: B :: A :: qp.bootstrap_cache.hard_coded_contacts := by
  constructor
  · rfl
  · simp [QuicP2p.bootstrapNodes, h]

/-- Three peers recorded in the order pa1, pa2, pa3. -/
def pa1 : SocketAddr := { ip := 10, port := 1 }

/-- Second recorded peer. -/
def pa2 : SocketAddr := { ip := 10, port := 2 }

/-- Third recorded peer. -/
def pa3 : SocketAddr := { ip := 10, port := 3 }

/-- A hard-coded contact distinct from the recorded peers. -/
def hc1 : SocketAddr := { ip := 99, port := 9 }

/-- An instance whose cache holds the peers pa1, pa2, pa3 inserted in that
order and the single hard-coded contact hc1. -/
def qpABC : QuicP2p :=
  QuicP2p.with_config { cfgDefault with hard_coded_contacts := [hc1] } [pa1, pa2, pa3] false []

/-- Claim C6, witnessed: the concrete instance with peers pa1, pa2, pa3
yields the candidate list pa3, pa2, pa1, hc1. -/
theorem bootstrap_nodes_order_witness :
    QuicP2p.bootstrapNodes qpABC =
      qpABC.bootstrap_cache.peers.reverse ++ qpABC.bootstrap_cache.hard_coded_contacts ∧
    QuicP2p.bootstrapNodes qpABC =
      pa3 :: pa2 :: pa1 :: qpABC.bootstrap_cache.hard_coded_contacts :=
  bootstrap_nodes_order qpABC pa1 pa2 pa3 rfl

/-- Claim C7: at construction, an absent maximum message size resolves to
500 * 1024 * 1024 bytes; an absent port resolves to port 12000 with
`allow_random_port` set, and a supplied port is recorded as given with
`allow_random_port` cleared. -/
theorem with_config_defaults (cfg : Config) (bootstrap_nodes : List SocketAddr)
    (use_bootstrap_cache : Bool) (diskPeers : List SocketAddr) :
    (cfg.max_msg_size_allowed = none →
      (QuicP2p.with_config cfg bootstrap_nodes use_bootstrap_cache diskPeers).max_msg_size =
        500 * 1024 * 1024) ∧
    (cfg.port = none →
      (QuicP2p.with_config cfg bootstrap_nodes use_bootstrap_cache diskPeers).local_addr.port =
          12000 ∧
        (QuicP2p.with_config cfg bootstrap_nodes use_bootstrap_cache diskPeers).allow_random_port =
          true) ∧
    (∀ p, cfg.port = some p →
      (QuicP2p.with_config cfg bootstrap_nodes use_bootstrap_cache diskPeers).local_addr.port =
          p ∧
        (QuicP2p.with_config cfg bootstrap_nodes use_bootstrap_cache diskPeers).allow_random_port =
          false) := by
  refine ⟨fun h => ?_, fun h => ?_, fun p h => ?_⟩ <;>
    simp [QuicP2p.with_config, h, DEFAULT_MAX_ALLOWED_MSG_SIZE, DEFAULT_PORT_TO_TRY]

/-- Claim C7, witnessed: the all-absent configuration yields the 500 MiB
limit, port 12000 and the random-port flag, and pinning port 4000 yields
port 4000 with the flag cleared. -/
theorem with_config_defaults_witness :
    (QuicP2p.with_config cfgDefault [] true []).max_msg_size = 500 * 1024 * 1024 ∧
    (QuicP2p.with_config cfgDefault [] true []).local_addr.port = 12000 ∧
    (QuicP2p.with_config cfgDefault [] true []).allow_random_port = true ∧
    (QuicP2p.with_config cfgPinned [] true []).local_addr.port = 4000 ∧
    (QuicP2p.with_config cfgPinned [] true []).allow_random_port = false :=
  ⟨(with_config_defaults cfgDefault [] true []).1 rfl,
    ((with_config_defaults cfgDefault [] true []).2.1 rfl).1,
    ((with_config_defaults cfgDefault [] true []).2.1 rfl).2,
    ((with_config_defaults cfgPinned [] true []).2.2 4000 rfl).1,
    ((with_config_defaults cfgPinned [] true []).2.2 4000 rfl).2⟩

/-- Claim C10: `connect_to` leaves every component of the instance
unchanged — both peer-cache lists, the recorded local address (the bound
address the attempt reports is discarded), the random-port flag, the
message-size limit, and both transport parameter sets — whether the
attempt succeeds or fails. -/
theorem connect_to_frame (net : Net) (qp : QuicP2p) (node_addr : SocketAddr) :
    (QuicP2p.connect_to net qp node_addr).fst.bootstrap_cache.peers =
        qp.bootstrap_cache.peers ∧
    (QuicP2p.connect_to net qp node_addr).fst.bootstrap_cache.hard_coded_contacts =
        qp.bootstrap_cache.hard_coded_contacts ∧
    (QuicP2p.connect_to net qp node_addr).fst.local_addr = qp.local_addr ∧
    (QuicP2p.connect_to net qp node_addr).fst.allow_random_port = qp.allow_random_port ∧
    (QuicP2p.connect_to net qp node_addr).fst.max_msg_size = qp.max_msg_size ∧
    (QuicP2p.connect_to net qp node_addr).fst.endpoint_cfg = qp.endpoint_cfg ∧
    (QuicP2p.connect_to net qp node_addr).fst.client_cfg = qp.client_cfg ∧
    (QuicP2p.connect_to net qp node_addr).fst = qp :=
  ⟨rfl, rfl, rfl, rfl, rfl, rfl, rfl, rfl⟩

/-- With no candidates there are no racing tasks and `select_ok` panics. -/
theorem bootstrap_nil (net : Net) (qp : QuicP2p) :
    QuicP2p.bootstrap net [] qp = (qp, Outcome.panicked) := rfl

/-- When the first task to complete carries an inner connection failure,
`select_ok` still resolves with it (the task joined without a `JoinError`)
and `bootstrap` propagates that inner error unchanged. -/
theorem bootstrap_cons_err (net : Net) (a : SocketAddr) (rest : List SocketAddr)
    (qp : QuicP2p) (e : Error)
    (hi : new_connection_to net a qp.endpoint_cfg qp.client_cfg qp.max_msg_size
      qp.local_addr qp.allow_random_port = Except.error e) :
    QuicP2p.bootstrap net (a :: rest) qp = (qp, Outcome.err e) := by
  simp [QuicP2p.bootstrap, select_ok, hi]

/-- When the first task to complete carries an inner success, `bootstrap`
adopts its connection and its bound local address. -/
theorem bootstrap_cons_ok (net : Net) (a : SocketAddr) (rest : List SocketAddr)
    (qp : QuicP2p) (c : Connection) (addr : SocketAddr)
    (hi : new_connection_to net a qp.endpoint_cfg qp.client_cfg qp.max_msg_size
      qp.local_addr qp.allow_random_port = Except.ok (c, addr)) :
    QuicP2p.bootstrap net (a :: rest) qp =
      ({ qp with local_addr := addr }, Outcome.ok c) := by
  simp [QuicP2p.bootstrap, select_ok, hi]

/-- Claim C8: whenever `bootstrap` returns a connection, the instance's
recorded local address has been updated to the address actually bound by
the winning attempt (the first task to complete, which must have
succeeded); when `bootstrap` does not return a connection the recorded
local address is unchanged. -/
theorem bootstrap_local_addr_update (net : Net) (order : List SocketAddr) (qp : QuicP2p) :
    (∀ qp2 c, QuicP2p.bootstrap net order qp = (qp2, Outcome.ok c) →
      ∃ a rest addr, order = a :: rest ∧
        new_connection_to net a qp.endpoint_cfg qp.client_cfg qp.max_msg_size
          qp.local_addr qp.allow_random_port = Except.ok (c, addr) ∧
        qp2 = { qp with local_addr := addr }) ∧
    (∀ qp2 e, QuicP2p.bootstrap net order qp = (qp2, Outcome.err e) →
      qp2.local_addr = qp.local_addr) ∧
    (∀ qp2, QuicP2p.bootstrap net order qp = (qp2, Outcome.panicked) →
      qp2.local_addr = qp.local_addr) := by
  refine ⟨?_, ?_, ?_⟩
  · intro qp2 c h
    cases order with
    | nil => rw [bootstrap_nil] at h; simp at h
    | cons a rest =>
      cases hi : new_connection_to net a qp.endpoint_cfg qp.client_cfg qp.max_msg_size
          qp.local_addr qp.allow_random_port with
      | error e => rw [bootstrap_cons_err net a rest qp e hi] at h; simp at h
      | ok p =>
        obtain ⟨c2, addr⟩ := p
        rw [bootstrap_cons_ok net a rest qp c2 addr hi] at h
        simp only [Prod.mk.injEq, Outcome.ok.injEq] at h
        obtain ⟨h1, h2⟩ := h
        subst h2
        exact ⟨a, rest, addr, rfl, hi, h1.symm⟩
  · intro qp2 e h
    cases order with
    | nil => rw [bootstrap_nil] at h; simp at h
    | cons a rest =>
      cases hi : new_connection_to net a qp.endpoint_cfg qp.client_cfg qp.max_msg_size
          qp.local_addr qp.allow_random_port with
      | error e2 =>
        rw [bootstrap_cons_err net a rest qp e2 hi] at h
        simp only [Prod.mk.injEq] at h
        rw [← h.1]
      | ok p =>
        obtain ⟨c2, addr⟩ := p
        rw [bootstrap_cons_ok net a rest qp c2 addr hi] at h
        simp at h
  · intro qp2 h
    cases order with
    | nil =>
      rw [bootstrap_nil] at h
      simp only [Prod.mk.injEq] at h
      rw [← h.1]
    | cons a rest =>
      cases hi : new_connection_to net a qp.endpoint_cfg qp.client_cfg qp.max_msg_size
          qp.local_addr qp.allow_random_port with
      | error e2 => rw [bootstrap_cons_err net a rest qp e2 hi] at h; simp at h
      | ok p =>
        obtain ⟨c2, addr⟩ := p
        rw [bootstrap_cons_ok net a rest qp c2 addr hi] at h
        simp at h

/-- A destination peer for the witness runs. -/
def peerZ : SocketAddr := { ip := 2, port := 9002 }

/-- A world in which every bind succeeds at the requested port 12000 only
after the OS reassigns it: the default port is busy, the ephemeral retry
binds at port 33000, and the handshake to any peer succeeds. -/
def netEphemeral : Net :=
  { sock := fun a =>
      if a.port = 0 then SockRes.ok { ip := a.ip, port := 33000 }
      else SockRes.udpErr "address in use"
    connect_with := fun _ ep na _ =>
      Except.ok { local_addr := ep.local_addr, node_addr := na }
    handshake := fun _ => Except.ok { id := 0 }
    conn_new_err := fun _ => none }

/-- The default-configured instance used by the witness runs. -/
def qpW : QuicP2p := QuicP2p.with_config cfgDefault [] true []

/-- The connection `netEphemeral` hands to a default-configured instance. -/
def connW : Connection :=
  { quic_conn := { id := 0 }, max_msg_size := DEFAULT_MAX_ALLOWED_MSG_SIZE }

/-- Claim C8, witnessed: with the default port busy, the winning attempt to
`peerZ` binds the ephemeral port 33000 and a successful bootstrap records
exactly that address. -/
theorem bootstrap_local_addr_update_witness :
    ∃ a rest addr, [peerZ] = a :: rest ∧
      new_connection_to netEphemeral a qpW.endpoint_cfg qpW.client_cfg qpW.max_msg_size
        qpW.local_addr qpW.allow_random_port = Except.ok (connW, addr) ∧
      { qpW with local_addr := { ip := 0, port := 33000 } } =
        { qpW with local_addr := addr } :=
  (bootstrap_local_addr_update netEphemeral [peerZ] qpW).1
    { qpW with local_addr := { ip := 0, port := 33000 } } connW (by decide)

/-- Claim C9: the hard-coded contacts are an invariant of the instance:
construction records exactly the configured contacts whatever the
use-cache flag — only the mutable peers list depends on it, either the
loaded list extended with the supplied nodes or replaced by them
wholesale — and bootstrap, connect_to and listen leave the whole cache
untouched. -/
theorem hard_coded_contacts_invariant :
    (∀ cfg bootstrap_nodes use_bootstrap_cache diskPeers,
      (QuicP2p.with_config cfg bootstrap_nodes
          use_bootstrap_cache diskPeers).bootstrap_cache.hard_coded_contacts =
        cfg.hard_coded_contacts ∧
      (QuicP2p.with_config cfg bootstrap_nodes
          use_bootstrap_cache diskPeers).bootstrap_cache.peers =
        (if use_bootstrap_cache then diskPeers ++ bootstrap_nodes else bootstrap_nodes)) ∧
    (∀ net order qp,
      (QuicP2p.bootstrap net order qp).fst.bootstrap_cache = qp.bootstrap_cache) ∧
    (∀ net qp node_addr,
      (QuicP2p.connect_to net qp node_addr).fst.bootstrap_cache = qp.bootstrap_cache) ∧
    (∀ net qp, (QuicP2p.listen net qp).fst.bootstrap_cache = qp.bootstrap_cache) := by
  refine ⟨?_, ?_, ?_, ?_⟩
  · intro cfg bootstrap_nodes use_bootstrap_cache diskPeers
    cases use_bootstrap_cache <;> exact ⟨rfl, rfl⟩
  · intro net order qp
    cases order with
    | nil => rw [bootstrap_nil]
    | cons a rest =>
      cases hi : new_connection_to net a qp.endpoint_cfg qp.client_cfg qp.max_msg_size
          qp.local_addr qp.allow_random_port with
      | error e => rw [bootstrap_cons_err net a rest qp e hi]
      | ok p =>
        obtain ⟨c, addr⟩ := p
        rw [bootstrap_cons_ok net a rest qp c addr hi]
  · intro net qp node_addr
    rfl
  · intro net qp
    rfl

/-- A peer that refuses the handshake. -/
def peerX : SocketAddr := { ip := 1, port := 9001 }

/-- A world in which every socket bind succeeds at the requested address,
the handshake to `peerX` is refused, and the handshake to any other peer
succeeds. -/
def netRace : Net :=
  { sock := fun a => SockRes.ok a
    connect_with := fun _ ep na _ =>
      if na = peerX then Except.error (Error.Connect "refused")
      else Except.ok { local_addr := ep.local_addr, node_addr := na }
    handshake := fun _ => Except.ok { id := 0 }
    conn_new_err := fun _ => none }

/-- An instance whose candidates are `peerX` (refusing) then `peerZ`
(accepting). -/
def qpXY : QuicP2p :=
  QuicP2p.with_config { cfgDefault with hard_coded_contacts := [peerX, peerZ] } [] true []

/-- An instance whose only candidate is the refusing `peerX`. -/
def qpX : QuicP2p :=
  QuicP2p.with_config { cfgDefault with hard_coded_contacts := [peerX] } [] true []

/-- Claim C1, evaluated on the code at the failing input: with candidates
`peerX` (whose attempt fails) and `peerZ` (whose attempt succeeds), and the
completion order `peerX` first, `bootstrap` returns `peerX`'s connection
error even though `peerZ`'s attempt can still succeed.  The racing tasks
are `tokio::spawn` join handles, so the `select_ok` race is decided by the
first task to complete at all — its inner connection result, failure
included — not by the first attempt to complete successfully. -/
theorem bootstrap_first_completion_decides :
    QuicP2p.bootstrapNodes qpXY = [peerX, peerZ] ∧
    new_connection_to netRace peerX qpXY.endpoint_cfg qpXY.client_cfg qpXY.max_msg_size
      qpXY.local_addr qpXY.allow_random_port = Except.error (Error.Connect "refused") ∧
    (∃ c addr, new_connection_to netRace peerZ qpXY.endpoint_cfg qpXY.client_cfg
      qpXY.max_msg_size qpXY.local_addr qpXY.allow_random_port = Except.ok (c, addr)) ∧
    (QuicP2p.bootstrap netRace [peerX, peerZ] qpXY).snd =
      Outcome.err (Error.Connect "refused") :=
  ⟨by decide, by decide, ⟨connW, { ip := 0, port := 12000 }, by decide⟩, by decide⟩

/-- Claim C2, evaluated on the code at the failing input: with the single
candidate `peerX`, whose attempt fails with a `Connect` error, every racing
attempt has failed and yet `bootstrap` returns that `Connect` error, not
`BootstrapFailure` — the `BootstrapFailure` mapping is reached only when
`select_ok` itself fails, i.e. on a `JoinError` of a panicked or cancelled
task, never from an attempt's own connection failure. -/
theorem bootstrap_all_fail_error_kind :
    QuicP2p.bootstrapNodes qpX = [peerX] ∧
    new_connection_to netRace peerX qpX.endpoint_cfg qpX.client_cfg qpX.max_msg_size
      qpX.local_addr qpX.allow_random_port = Except.error (Error.Connect "refused") ∧
    (QuicP2p.bootstrap netRace [peerX] qpX).snd =
      Outcome.err (Error.Connect "refused") :=
  ⟨by decide, by decide, by decide⟩

/-- Claim C3, evaluated on the code at the failing input: with no cached
peers and no hard-coded contacts the candidate list is empty, no task is
spawned, and `select_ok` — whose documentation states that it panics when
handed no futures — aborts the call instead of returning
`BootstrapFailure`. -/
theorem bootstrap_empty_panics :
    QuicP2p.bootstrapNodes qpW = [] ∧
    QuicP2p.bootstrap netRace [] qpW = (qpW, Outcome.panicked) :=
  ⟨rfl, rfl⟩
